import Mathlib

/-!
Verification of the revcon-middleware batch rating dispatcher.

This file gives a shallow embedding of the Go sources under `app/handlers`
(`rate.go`, `externalauth.go`) and `app/routes/rate.go`, and proves the
behavioural claims about them.

Modelling conventions:
* Go `(T, error)` return pairs become `T × Option String` (or `Except`),
  with `none` for a `nil` error.
* The external world (the pricing service, the identity provider, the Go
  standard library's JSON codec) is an explicit environment parameter;
  the repository's own control flow is translated branch for branch.
* Real time is abstracted to a latency in whole seconds: the Go runtime
  contract "a call whose latency exceeds the context deadline fails with
  an error wrapping context.DeadlineExceeded" is modelled by `clientDo`.
* Goroutines: the worker pool of `ProcessRequestsInParallel` is modelled
  by a small-step transition relation over pool states; workers are a
  multiset of worker states, and the nondeterministic scheduler is the
  choice of which transition fires.
-/

namespace Revcon

/-! ## Data model (rate.go lines 23-87) -/

/-- `FreightItem` from rate.go: one cargo line item. -/
structure FreightItem where
  Class : String
  IsHazardous : Bool
  Pieces : Int
  Weight : Int
  Packaging : String
  NMFC : Int
  ProductDescription : String
  Density : String
  Length : Int
  Width : Int
  Height : Int
  Billed : Int
  Cost : Int
  UnitsWeight : String
  UnitsDensity : String
  UnitsDimension : String
  deriving DecidableEq, Repr

/-- `FreightDetails` from rate.go. -/
structure FreightDetails where
  ConsigneeZip : String
  ShipmentMode : String
  ShipperZip : String
  Miles : String
  ShipperCountry : String
  ConsigneeCountry : String
  EquipmentType : String
  Accessorials : List String
  Items : List FreightItem
  deriving DecidableEq, Repr

/-- `PayloadRequest` from rate.go: one work item of a batch. -/
structure PayloadRequest where
  StopId : Int
  FreightDetails : FreightDetails
  deriving DecidableEq, Repr

/-- `APIResponseItem` from rate.go: one priced line-offer returned by the
pricing service.  Go's `float64` field `Billed` is modelled as a rational
number; no claim inspects its value. -/
structure APIResponseItem where
  Name : String
  Scac : String
  Billed : Rat
  TransitTime : String
  BillToCode : Option Int
  ServiceType : String
  ServiceDescription : String
  deriving DecidableEq, Repr

/-- `ResponseWithStopID` from rate.go: the outcome for one work item.
`Response = none` models a nil Go slice (the field left unset),
`Response = some []` models an explicitly empty slice. -/
structure ResponseWithStopID where
  StopID : Int
  Response : Option (List APIResponseItem)
  Error : String
  deriving DecidableEq, Repr

/-- `MaxWorkers` from rate.go line 20. -/
def MaxWorkers : Nat := 5

/-- The `Timeout` of `SharedClient` (rate.go line 19), in seconds. -/
def SharedClientTimeoutSeconds : Nat := 300

/-! ## Downstream client (rate.go `PostRequestWithContext`, lines 89-141) -/

/-- A Go `error` value produced below the HTTP client: either the
context-deadline error (`context.DeadlineExceeded`, which the net/http
client surfaces when the per-call context expires) or any other error,
identified by its message. -/
inductive GoError where
  | deadlineExceeded
  | other (msg : String)
  deriving DecidableEq, Repr

/-- `err.Error()` for the modelled Go errors; the deadline error's message
is the one `context.DeadlineExceeded` carries. -/
def GoError.message : GoError → String
  | .deadlineExceeded => "context deadline exceeded"
  | .other msg => msg

/-- An HTTP response from the pricing service: status code and raw body. -/
structure HTTPResponse where
  status : Nat
  body : String
  deriving DecidableEq, Repr

/-- Environment of one downstream call: the behaviour of the external
pricing service and of the Go standard library for this call.
`panics` marks a call in whose path an unexpected runtime fault occurs
(used by the worker-pool model; `ProcessSingleRequest` itself is only
defined on non-panicking environments). -/
structure DownstreamEnv where
  marshalErr : Option String
  newRequestErr : Option String
  latencySeconds : Nat
  doResult : Except GoError HTTPResponse
  readErr : Option String
  panics : Bool
  deriving Repr

/-- The net/http contract for `SharedClient.Do` under a context deadline
(in seconds): if the call's latency exceeds the effective timeout — the
smaller of the context deadline and the client's own 300 s `Timeout` —
the call fails with the deadline error; otherwise the environment's
transport result stands. -/
def clientDo (deadlineSeconds : Nat) (env : DownstreamEnv) :
    Except GoError HTTPResponse :=
  if min deadlineSeconds SharedClientTimeoutSeconds < env.latencySeconds then
    .error .deadlineExceeded
  else
    env.doResult

/-- The error message built by rate.go line 134,
`fmt.Errorf("non-200 HTTP status code received: %d, body: %s", ...)`. -/
def non200Message (status : Nat) (body : String) : String :=
  "non-200 HTTP status code received: " ++ toString status ++ ", body: " ++ body

/-- `PostRequestWithContext` (rate.go lines 89-141), branch for branch.
The URL, headers and payload map do not influence the modelled result and
are absorbed into the environment; the context deadline is passed in
seconds.  Returns the response body string, or the error, exactly at the
source's return sites. -/
def PostRequestWithContext (deadlineSeconds : Nat) (env : DownstreamEnv) :
    Except GoError String :=
  match env.marshalErr with
  | some e => .error (.other e)
  | none =>
    match env.newRequestErr with
    | some e => .error (.other e)
    | none =>
      match clientDo deadlineSeconds env with
      | .error e => .error e
      | .ok resp =>
        match env.readErr with
        | some e => .error (.other e)
        | none =>
          if resp.status ≠ 200 then
            .error (.other (non200Message resp.status resp.body))
          else
            .ok resp.body

/-- The Go standard library's `json.Unmarshal` into `[]APIResponseItem`,
as an abstract codec supplied by the environment. -/
def JSONDecoder : Type := String → Except String (List APIResponseItem)

/-- The behaviour of the external world for a whole batch: each work item
gets its own downstream environment. -/
def Oracle : Type := PayloadRequest → DownstreamEnv

/-- `ProcessSingleRequest` (rate.go lines 194-231), branch for branch:
a 69-second per-call context deadline (line 195), the downstream call,
then JSON decoding of the body.  All three source return sites carry a
`nil` Go error, so the second component is always `none`. -/
def ProcessSingleRequest (dec : JSONDecoder) (oracle : Oracle)
    (req : PayloadRequest) : ResponseWithStopID × Option String :=
  match PostRequestWithContext 69 (oracle req) with
  | .error e =>
    ({ StopID := req.StopId, Response := none,
       Error := "Error Posting with Context: " ++ e.message }, none)
  | .ok response =>
    match dec response with
    | .error e =>
      ({ StopID := req.StopId, Response := some [], Error := e }, none)
    | .ok apiResponse =>
      ({ StopID := req.StopId, Response := some apiResponse, Error := "" },
       none)

/-- The outcome (first component) of `ProcessSingleRequest`. -/
def pOne (dec : JSONDecoder) (oracle : Oracle) (req : PayloadRequest) :
    ResponseWithStopID :=
  (ProcessSingleRequest dec oracle req).1

/-! ## Token acquisition (externalauth.go `GetOAuthToken`) and processor
construction (rate.go `NewRequestProcessor`) -/

/-- Environment of one call to the identity provider: the behaviour of
`http.PostForm` on `AUTH_URL` and of the JSON decoding of its body.
`accessToken` is `some t` when the decoded body has a string-typed
`access_token` field with value `t`, `none` otherwise. -/
structure AuthEnv where
  postFormErr : Option String
  status : Nat
  decodeErr : Option String
  accessToken : Option String
  deriving DecidableEq, Repr

/-- `GetOAuthToken` (externalauth.go lines 11-45), branch for branch.
Note the two buggy return sites: on a non-200 status, and on a missing or
non-string `access_token` field, the source executes `return "", err`
where `err` is the *outer* error variable, which is `nil` at that point —
so both branches return an empty token with a `nil` error. -/
def GetOAuthToken (env : AuthEnv) : String × Option String :=
  match env.postFormErr with
  | some e => ("", some e)
  | none =>
    if env.status ≠ 200 then
      ("", none)
    else
      match env.decodeErr with
      | some e => ("", some e)
      | none =>
        match env.accessToken with
        | none => ("", none)
        | some token => (token, none)

/-- `RequestProcessor` from rate.go lines 23-27; `Headers` is the Go
string-to-string map, modelled as an association list with exactly the
two keys the source sets. -/
structure RequestProcessor where
  AccessToken : String
  Headers : List (String × String)
  Workers : Nat
  deriving DecidableEq, Repr

/-- `NewRequestProcessor` (rate.go lines 173-187). -/
def NewRequestProcessor (env : AuthEnv) : Except String RequestProcessor :=
  match GetOAuthToken env with
  | (_, some e) => .error e
  | (accessToken, none) =>
    .ok { AccessToken := accessToken,
          Headers := [("Authorization", "Bearer " ++ accessToken),
                      ("Content-Type", "application/json")],
          Workers := MaxWorkers }

/-! ## HTTP handler (routes/rate.go `SubmitRatingHandler`) -/

/-- What `SubmitRatingHandler` writes back: `RespondWithError` with an
HTTP status, or the JSON-encoded outcome list with implicit status 200. -/
inductive HandlerResult where
  | respondError (status : Nat) (msg : String)
  | okJSON (responses : List ResponseWithStopID)
  deriving DecidableEq, Repr

/-- Environment of one handler invocation: the parse result of the
request body and the identity-provider behaviour. -/
structure HandlerEnv where
  parseResult : Except String (List PayloadRequest)
  authEnv : AuthEnv

/-- `SubmitRatingHandler` (routes/rate.go lines 11-43), branch for
branch.  `dispatchF` stands for `processor.ProcessRequestsInParallel`
(whose concurrent behaviour is modelled separately below); the handler
only inspects its returned pair. -/
def SubmitRatingHandler
    (dispatchF : RequestProcessor → List PayloadRequest →
      List ResponseWithStopID × Option String)
    (env : HandlerEnv) : HandlerResult :=
  match env.parseResult with
  | .error e => .respondError 400 ("Error Parsing Requests: " ++ e)
  | .ok requests =>
    match NewRequestProcessor env.authEnv with
    | .error e => .respondError 400 ("Error Handling Requests: " ++ e)
    | .ok processor =>
      match dispatchF processor requests with
      | (_, some e) => .respondError 500 ("Error Handling Requests: " ++ e)
      | (responses, none) => .okJSON responses

/-! ## Worker pool (rate.go `ProcessRequestsInParallel`, lines 233-274)

The dispatcher pre-loads a buffered channel with the batch, closes it,
starts `p.Workers` goroutines, waits for all of them, closes the result
channel and drains it.  We model a pool configuration as a state: the
remaining queue (the closed request channel), a multiset of worker
states, the drained result list (in publish order — the nondeterministic
channel order), and a flag recording whether an unrecovered panic has
terminated the process.  The scheduler's nondeterminism is the choice of
which transition fires next. -/

/-- The state of one worker goroutine of the pool. -/
inductive WorkerState where
  | idle
  | working (req : PayloadRequest)
  | done
  deriving DecidableEq, Repr

/-- A state of the worker pool. -/
structure PState where
  queue : List PayloadRequest
  workers : Multiset WorkerState
  results : List ResponseWithStopID
  crashed : Bool
  deriving DecidableEq

/-- One scheduler step of `ProcessRequestsInParallel`'s pool:
* `grab` — an idle worker receives the next request from the closed
  channel (`for req := range requestQueue`);
* `exitLoop` — an idle worker observes the closed, empty channel and
  returns (its deferred `wg.Done` fires);
* `publish` — a worker finishes `ProcessSingleRequest` for its request
  and sends the outcome on `responseChan`;
* `fault` — an unexpected runtime fault occurs in the call path.  The
  worker body has no `recover()`, so the deferred `wg.Done` runs and the
  unrecovered panic terminates the whole process: the outcome is lost
  and no further step is possible. -/
inductive Step (dec : JSONDecoder) (oracle : Oracle) : PState → PState → Prop
  | grab (r : PayloadRequest) (q : List PayloadRequest)
      (w : Multiset WorkerState) (res : List ResponseWithStopID) :
      Step dec oracle ⟨r :: q, w + {.idle}, res, false⟩
        ⟨q, w + {.working r}, res, false⟩
  | exitLoop (w : Multiset WorkerState) (res : List ResponseWithStopID) :
      Step dec oracle ⟨[], w + {.idle}, res, false⟩
        ⟨[], w + {.done}, res, false⟩
  | publish (r : PayloadRequest) (q : List PayloadRequest)
      (w : Multiset WorkerState) (res : List ResponseWithStopID) :
      (oracle r).panics = false →
      Step dec oracle ⟨q, w + {.working r}, res, false⟩
        ⟨q, w + {.idle}, res ++ [pOne dec oracle r], false⟩
  | fault (r : PayloadRequest) (q : List PayloadRequest)
      (w : Multiset WorkerState) (res : List ResponseWithStopID) :
      (oracle r).panics = true →
      Step dec oracle ⟨q, w + {.working r}, res, false⟩
        ⟨q, w + {.done}, res, true⟩

/-- Reachability under the pool's step relation. -/
def Reachable (dec : JSONDecoder) (oracle : Oracle) : PState → PState → Prop :=
  Relation.ReflTransGen (Step dec oracle)

/-- The pool state right after the dispatcher has loaded and closed the
request channel and started `W` workers. -/
def initState (requests : List PayloadRequest) (W : Nat) : PState :=
  ⟨requests, Multiset.replicate W WorkerState.idle, [], false⟩

/-- A state in which `wg.Wait()` has returned: every worker has exited
(and the process has not crashed).  The dispatcher then closes and
drains `responseChan`. -/
def Final (s : PState) : Prop :=
  s.crashed = false ∧ ∀ w ∈ s.workers, w = WorkerState.done

/-- The dispatcher's single return site (rate.go line 273,
`return responses, nil`): the drained results, and a `nil` error. -/
def dispatchReturn (s : PState) : List ResponseWithStopID × Option String :=
  (s.results, none)

/-- The request a worker currently holds, as a multiset. -/
def heldMS : WorkerState → Multiset PayloadRequest
  | .working r => {r}
  | _ => 0

/-- All requests currently held by workers of the pool. -/
def heldOf (w : Multiset WorkerState) : Multiset PayloadRequest :=
  (w.map heldMS).sum

theorem heldMS_idle : heldMS WorkerState.idle = 0 := rfl

theorem heldMS_done : heldMS WorkerState.done = 0 := rfl

theorem heldMS_working (r : PayloadRequest) :
    heldMS (WorkerState.working r) = {r} := rfl

theorem heldOf_add_one (w : Multiset WorkerState) (x : WorkerState) :
    heldOf (w + {x}) = heldOf w + heldMS x := by
  simp [heldOf, Multiset.map_add, Multiset.sum_add]

/-- The outcomes a pool state still owes, together with those already
published: published results plus the image of every pending request
(queued or held). -/
def obligations (dec : JSONDecoder) (oracle : Oracle) (s : PState) :
    Multiset ResponseWithStopID :=
  ↑s.results + Multiset.map (pOne dec oracle) (↑s.queue + heldOf s.workers)

/-- Conservation: as long as the process has not crashed, every step
preserves the obligations of the pool. -/
theorem step_obligations {dec : JSONDecoder} {oracle : Oracle}
    {s t : PState} (h : Step dec oracle s t) (ht : t.crashed = false) :
    obligations dec oracle t = obligations dec oracle s := by
  cases h with
  | grab r q w res =>
    simp only [obligations, heldOf_add_one, heldMS_idle, heldMS_working,
      ← Multiset.cons_coe, ← Multiset.singleton_add, Multiset.map_add,
      Multiset.map_singleton, Multiset.map_zero, add_zero]
    abel
  | exitLoop w res =>
    simp only [obligations, heldOf_add_one, heldMS_idle, heldMS_done]
  | publish r q w res hp =>
    have hone : ((([pOne dec oracle r] : List ResponseWithStopID) :
        Multiset ResponseWithStopID)) = {pOne dec oracle r} := rfl
    simp only [obligations, heldOf_add_one, heldMS_idle, heldMS_working,
      ← Multiset.coe_add, hone, Multiset.map_add, Multiset.map_singleton,
      Multiset.map_zero, add_zero]
    abel
  | fault r q w res hp =>
    simp at ht

/-- Crashes are terminal for conservation purposes: a non-crashed state
reachable from the initial state owes exactly the batch's outcomes. -/
theorem reachable_obligations {dec : JSONDecoder} {oracle : Oracle}
    {requests : List PayloadRequest} {W : Nat} {s : PState}
    (h : Reachable dec oracle (initState requests W) s)
    (hs : s.crashed = false) :
    obligations dec oracle s = Multiset.map (pOne dec oracle) ↑requests := by
  induction h with
  | refl =>
    simp [obligations, initState, heldOf, Multiset.map_replicate, heldMS_idle]
  | tail hstep hlast ih =>
    rename_i b c
    have hb : b.crashed = false := by
      cases hlast with
      | grab r q w res => rfl
      | exitLoop w res => rfl
      | publish r q w res hp => rfl
      | fault r q w res hp => simp at hs
    rw [step_obligations hlast hs]
    exact ih hb

/-- If every worker has exited and the process has not crashed, the
queue has been fully drained (provided the pool had at least one
worker). -/
theorem final_queue_empty {dec : JSONDecoder} {oracle : Oracle}
    {requests : List PayloadRequest} {W : Nat} {s : PState}
    (hW : 0 < W)
    (h : Reachable dec oracle (initState requests W) s)
    (hdone : ∀ w ∈ s.workers, w = WorkerState.done)
    (hs : s.crashed = false) :
    s.queue = [] := by
  induction h with
  | refl =>
    exfalso
    have hidle : WorkerState.idle ∈ (initState requests W).workers := by
      simp [initState, Multiset.mem_replicate]
      omega
    exact WorkerState.noConfusion (hdone _ hidle)
  | tail hstep hlast ih =>
    cases hlast with
    | grab r q w res =>
      exfalso
      have hmem : WorkerState.working r ∈ w + ({WorkerState.working r} : Multiset WorkerState) := by
        simp
      exact WorkerState.noConfusion (hdone _ hmem)
    | exitLoop w res => rfl
    | publish r q w res hp =>
      exfalso
      have hmem : WorkerState.idle ∈ w + ({WorkerState.idle} : Multiset WorkerState) := by
        simp
      exact WorkerState.noConfusion (hdone _ hmem)
    | fault r q w res hp => simp at hs

/-- A crashed-free final pool state holds no requests. -/
theorem final_heldOf_zero {s : PState}
    (hdone : ∀ w ∈ s.workers, w = WorkerState.done) :
    heldOf s.workers = 0 := by
  apply Multiset.sum_eq_zero
  intro x hx
  rcases Multiset.mem_map.1 hx with ⟨w, hw, rfl⟩
  rw [hdone w hw]
  rfl

/-- Main fan-out/fan-in theorem: every completed run of the pool
publishes exactly the outcomes of `ProcessSingleRequest` on the batch,
as a permutation. -/
theorem dispatch_perm {dec : JSONDecoder} {oracle : Oracle}
    {requests : List PayloadRequest} {W : Nat} {s : PState}
    (hW : 0 < W)
    (h : Reachable dec oracle (initState requests W) s)
    (hfinal : Final s) :
    s.results.Perm (requests.map (pOne dec oracle)) := by
  obtain ⟨hs, hdone⟩ := hfinal
  have hq : s.queue = [] := final_queue_empty hW h hdone hs
  have hob := reachable_obligations h hs
  rw [obligations, hq, final_heldOf_zero hdone] at hob
  simp only [Multiset.coe_nil, add_zero, Multiset.map_zero] at hob
  rw [Multiset.map_coe] at hob
  exact Multiset.coe_eq_coe.1 hob

/-! ## Basic facts and concrete fixtures -/

/-- All three return sites of `ProcessSingleRequest` copy the work item's
`StopId` into the outcome. -/
theorem pOne_StopID (dec : JSONDecoder) (oracle : Oracle) (req : PayloadRequest) :
    (pOne dec oracle req).StopID = req.StopId := by
  unfold pOne ProcessSingleRequest
  rcases h : PostRequestWithContext 69 (oracle req) with e | response
  · simp [h]
  · rcases h2 : dec response with e | a <;> simp [h, h2]

/-- A work item with empty domain fields (the claims do not depend on the
freight payload's content). -/
def emptyFreightDetails : FreightDetails :=
  { ConsigneeZip := "", ShipmentMode := "", ShipperZip := "", Miles := "",
    ShipperCountry := "", ConsigneeCountry := "", EquipmentType := "",
    Accessorials := [], Items := [] }

/-- A concrete work item. -/
def sampleRequest : PayloadRequest :=
  { StopId := 7, FreightDetails := emptyFreightDetails }

/-- A concrete JSON codec: the Go `json.Unmarshal` behaviour on the body
`"[]"` (a valid empty `[]APIResponseItem`) and a decode error on
everything else. -/
def decEmpty : JSONDecoder := fun s =>
  if s = "[]" then .ok []
  else .error ("invalid character looking for beginning of value: " ++ s)

/-- A downstream service that answers every item with 200 and body
`"[]"`, instantly. -/
def oracleEmptyList : Oracle := fun _ =>
  { marshalErr := none, newRequestErr := none, latencySeconds := 0,
    doResult := .ok ⟨200, "[]"⟩, readErr := none, panics := false }

/-- The final pool state of a one-item, one-worker run against
`oracleEmptyList`. -/
def poolRunState : PState :=
  ⟨[], {WorkerState.done}, [pOne decEmpty oracleEmptyList sampleRequest], false⟩

/-- A complete concrete schedule: grab, publish, exit. -/
theorem sample_trace :
    Reachable decEmpty oracleEmptyList (initState [sampleRequest] 1) poolRunState := by
  have h1 : Step decEmpty oracleEmptyList
      (⟨sampleRequest :: [], 0 + {WorkerState.idle}, [], false⟩ : PState)
      (⟨[], 0 + {WorkerState.working sampleRequest}, [], false⟩ : PState) :=
    Step.grab sampleRequest [] 0 []
  have h2 : Step decEmpty oracleEmptyList
      (⟨[], 0 + {WorkerState.working sampleRequest}, [], false⟩ : PState)
      (⟨[], 0 + {WorkerState.idle},
        [] ++ [pOne decEmpty oracleEmptyList sampleRequest], false⟩ : PState) :=
    Step.publish sampleRequest [] 0 [] rfl
  have h3 : Step decEmpty oracleEmptyList
      (⟨[], 0 + {WorkerState.idle},
        [] ++ [pOne decEmpty oracleEmptyList sampleRequest], false⟩ : PState)
      (⟨[], 0 + {WorkerState.done},
        [] ++ [pOne decEmpty oracleEmptyList sampleRequest], false⟩ : PState) :=
    Step.exitLoop 0 ([] ++ [pOne decEmpty oracleEmptyList sampleRequest])
  have e0 : initState [sampleRequest] 1
      = (⟨sampleRequest :: [], 0 + {WorkerState.idle}, [], false⟩ : PState) := by
    simp [initState, Multiset.replicate_one]
  have e3 : (⟨[], 0 + {WorkerState.done},
      [] ++ [pOne decEmpty oracleEmptyList sampleRequest], false⟩ : PState)
      = poolRunState := by
    simp [poolRunState]
  rw [e0]
  exact Relation.ReflTransGen.head h1
    (Relation.ReflTransGen.head h2
      (Relation.ReflTransGen.head h3 (by rw [e3])))

/-- `poolRunState` is final: its only worker has exited. -/
theorem poolRunState_final : Final poolRunState := by
  constructor
  · rfl
  · intro w hw
    exact Multiset.mem_singleton.1 hw

/-! ## Claims C1, C7, C8 -/

/-- C1: for every batch `B` of parsed requests, every completed run of
`ProcessRequestsInParallel(B)` returns a list of outcomes whose length
equals the length of `B` — one outcome per work item, even when every
item individually errors (the per-item outcome of `ProcessSingleRequest`
carries the error, so the count is unaffected).  `0 < W` holds in the
program: `NewRequestProcessor` sets `Workers := MaxWorkers = 5`. -/
theorem c1_one_outcome_per_item (dec : JSONDecoder) (oracle : Oracle)
    (requests : List PayloadRequest) (W : Nat) (s : PState)
    (hW : 0 < W)
    (hreach : Reachable dec oracle (initState requests W) s)
    (hfinal : Final s) :
    (dispatchReturn s).1.length = requests.length := by
  have hp := dispatch_perm hW hreach hfinal
  calc (dispatchReturn s).1.length
      = (requests.map (pOne dec oracle)).length := hp.length_eq
    _ = requests.length := List.length_map _ _

/-- Witness for C1: the concrete one-item, one-worker run. -/
theorem c1_one_outcome_per_item_witness :
    (dispatchReturn poolRunState).1.length = [sampleRequest].length :=
  c1_one_outcome_per_item decEmpty oracleEmptyList [sampleRequest] 1 poolRunState
    (by decide) sample_trace poolRunState_final

/-- C7: for every completed batch whose work items carry identifiers
unique within the batch, the outcome identifiers are a permutation of
the work-item identifiers (each outcome's identifier is its originating
item's identifier), and each work-item identifier appears exactly once
across the result set. -/
theorem c7_identifier_bijection (dec : JSONDecoder) (oracle : Oracle)
    (requests : List PayloadRequest) (W : Nat) (s : PState)
    (hW : 0 < W)
    (hnodup : (requests.map PayloadRequest.StopId).Nodup)
    (hreach : Reachable dec oracle (initState requests W) s)
    (hfinal : Final s) :
    ((dispatchReturn s).1.map ResponseWithStopID.StopID).Perm
      (requests.map PayloadRequest.StopId) ∧
    ∀ req ∈ requests,
      ((dispatchReturn s).1.map ResponseWithStopID.StopID).count req.StopId = 1 := by
  have hp := dispatch_perm hW hreach hfinal
  have hmap := hp.map ResponseWithStopID.StopID
  have hfun : (ResponseWithStopID.StopID ∘ pOne dec oracle) = PayloadRequest.StopId :=
    funext (pOne_StopID dec oracle)
  rw [List.map_map, hfun] at hmap
  refine ⟨hmap, fun req hreq => ?_⟩
  show (s.results.map ResponseWithStopID.StopID).count req.StopId = 1
  rw [hmap.count_eq]
  exact List.count_eq_one_of_mem hnodup (List.mem_map_of_mem _ hreq)

/-- Witness for C7: the concrete one-item, one-worker run. -/
theorem c7_identifier_bijection_witness :
    ((dispatchReturn poolRunState).1.map ResponseWithStopID.StopID).Perm
      ([sampleRequest].map PayloadRequest.StopId) ∧
    ∀ req ∈ [sampleRequest],
      ((dispatchReturn poolRunState).1.map ResponseWithStopID.StopID).count req.StopId = 1 :=
  c7_identifier_bijection decEmpty oracleEmptyList [sampleRequest] 1 poolRunState
    (by decide) (by decide) sample_trace poolRunState_final

/-- C8: dispatching a batch of size 0 yields an empty result set and a
`nil` error, and no worker ever performs a side effect: no worker ever
holds a work item (so no downstream call and no published outcome), and
the process never crashes. -/
theorem c8_empty_batch (dec : JSONDecoder) (oracle : Oracle) (W : Nat) (s : PState)
    (hreach : Reachable dec oracle (initState [] W) s) :
    (dispatchReturn s).1 = [] ∧ (dispatchReturn s).2 = none ∧
    (∀ r : PayloadRequest, WorkerState.working r ∉ s.workers) ∧
    s.crashed = false := by
  have key : s.queue = [] ∧ s.results = [] ∧ s.crashed = false ∧
      ∀ r : PayloadRequest, WorkerState.working r ∉ s.workers := by
    induction hreach with
    | refl =>
      refine ⟨rfl, rfl, rfl, fun r hr => ?_⟩
      rw [initState] at hr
      simp [Multiset.mem_replicate] at hr
    | tail hstep hlast ih =>
      obtain ⟨hq, hres, hcr, hw⟩ := ih
      cases hlast with
      | grab r q w res => simp at hq
      | exitLoop w res =>
        refine ⟨rfl, hres, rfl, fun r hr => ?_⟩
        rcases Multiset.mem_add.1 hr with h | h
        · exact hw r (Multiset.mem_add.2 (Or.inl h))
        · exact WorkerState.noConfusion (Multiset.mem_singleton.1 h)
      | publish r q w res hp =>
        exact absurd (Multiset.mem_add.2 (Or.inr (Multiset.mem_singleton.2 rfl))) (hw r)
      | fault r q w res hp =>
        exact absurd (Multiset.mem_add.2 (Or.inr (Multiset.mem_singleton.2 rfl))) (hw r)
  exact ⟨key.2.1, rfl, key.2.2.2, key.2.2.1⟩

/-- The final state of a zero-item, one-worker run. -/
def emptyRunState : PState := ⟨[], {WorkerState.done}, [], false⟩

/-- A complete concrete schedule for the empty batch: the single worker
observes the closed empty queue and exits. -/
theorem empty_trace :
    Reachable decEmpty oracleEmptyList (initState [] 1) emptyRunState := by
  have h1 : Step decEmpty oracleEmptyList
      (⟨[], 0 + {WorkerState.idle}, [], false⟩ : PState)
      (⟨[], 0 + {WorkerState.done}, [], false⟩ : PState) :=
    Step.exitLoop 0 []
  have e0 : initState [] 1
      = (⟨[], 0 + {WorkerState.idle}, [], false⟩ : PState) := by
    simp [initState, Multiset.replicate_one]
  have e1 : (⟨[], 0 + {WorkerState.done}, [], false⟩ : PState) = emptyRunState := by
    simp [emptyRunState]
  rw [e0]
  exact Relation.ReflTransGen.head h1 (by rw [e1])

/-- Witness for C8: the concrete zero-item, one-worker run. -/
theorem c8_empty_batch_witness :
    (dispatchReturn emptyRunState).1 = [] ∧ (dispatchReturn emptyRunState).2 = none ∧
    (∀ r : PayloadRequest, WorkerState.working r ∉ emptyRunState.workers) ∧
    emptyRunState.crashed = false :=
  c8_empty_batch decEmpty oracleEmptyList 1 emptyRunState empty_trace

/-! ## Claim C2 -/

/-- The success payload of an outcome, read as a (possibly empty) list:
a nil Go slice and an explicitly empty slice are both empty. -/
def payloadList (o : ResponseWithStopID) : List APIResponseItem :=
  o.Response.getD []

/-- C2 counterexample: the claim says exactly one of payload and error
is non-empty, "never both, never neither".  But when the pricing service
answers 200 with body `"[]"` (a valid, empty offer list), the outcome of
`ProcessSingleRequest` has an empty payload and an empty error string —
"neither" happens. -/
theorem c2_counterexample :
    (pOne decEmpty oracleEmptyList sampleRequest).Response = some [] ∧
    (pOne decEmpty oracleEmptyList sampleRequest).Error = "" ∧
    ¬ Xor' (payloadList (pOne decEmpty oracleEmptyList sampleRequest) ≠ [])
        ((pOne decEmpty oracleEmptyList sampleRequest).Error ≠ "") := by
  refine ⟨rfl, rfl, ?_⟩
  rw [show pOne decEmpty oracleEmptyList sampleRequest
      = ⟨7, some [], ""⟩ from rfl]
  simp [Xor', payloadList]

/-- C2 amended: for every outcome produced by `ProcessSingleRequest`, at
most one of the success payload and the error description is non-empty —
never both; both are empty exactly when the downstream returns a
successfully decoded empty offer list. -/
theorem c2_at_most_one_nonempty (dec : JSONDecoder) (oracle : Oracle)
    (req : PayloadRequest) :
    (pOne dec oracle req).Error = "" ∨ payloadList (pOne dec oracle req) = [] := by
  rcases h : PostRequestWithContext 69 (oracle req) with e | response
  · simp [pOne, ProcessSingleRequest, payloadList, h]
  · rcases h2 : dec response with e | a <;>
      simp [pOne, ProcessSingleRequest, payloadList, h, h2]

/-! ## Claim C4 -/

/-- C4: for every downstream call that obtains an HTTP response whose
status is not a success status (non-2xx, hence in particular not the 200
the source tests for), `PostRequestWithContext` returns an error (empty
payload) whose message contains both the decimal status code and the raw
response body. -/
theorem c4_non2xx_error_carries_status_and_body
    (deadlineSeconds : Nat) (env : DownstreamEnv) (resp : HTTPResponse)
    (hm : env.marshalErr = none) (hn : env.newRequestErr = none)
    (hdo : clientDo deadlineSeconds env = .ok resp)
    (hr : env.readErr = none)
    (hs : resp.status < 200 ∨ 299 < resp.status) :
    PostRequestWithContext deadlineSeconds env =
      .error (.other (non200Message resp.status resp.body)) ∧
    (toString resp.status).data <:+: (non200Message resp.status resp.body).data ∧
    resp.body.data <:+: (non200Message resp.status resp.body).data := by
  have h200 : resp.status ≠ 200 := by omega
  refine ⟨?_, ?_, ?_⟩
  · unfold PostRequestWithContext
    rw [hm, hn, hdo, hr]
    simp [h200]
  · exact ⟨"non-200 HTTP status code received: ".data,
      (", body: " ++ resp.body).data,
      by simp [non200Message, String.data_append, List.append_assoc]⟩
  · exact ⟨("non-200 HTTP status code received: " ++ toString resp.status ++
        ", body: ").data, [],
      by simp [non200Message, String.data_append, List.append_assoc]⟩

/-- The spec's stub: HTTP 500 with body `"boom"`. -/
def env500 : DownstreamEnv :=
  { marshalErr := none, newRequestErr := none, latencySeconds := 0,
    doResult := .ok ⟨500, "boom"⟩, readErr := none, panics := false }

/-- Witness for C4: the 500/`"boom"` stub yields an error containing
`"500"` and `"boom"`. -/
theorem c4_non2xx_error_witness :
    PostRequestWithContext 69 env500 =
      .error (.other (non200Message 500 "boom")) ∧
    (toString (500 : Nat)).data <:+: (non200Message 500 "boom").data ∧
    "boom".data <:+: (non200Message 500 "boom").data :=
  c4_non2xx_error_carries_status_and_body 69 env500 ⟨500, "boom"⟩
    rfl rfl rfl rfl (Or.inr (by decide))

/-! ## Claim C5 -/

/-- C5: every downstream call of `ProcessSingleRequest` carries the
69-second per-call deadline of rate.go line 195; a call whose latency
exceeds it fails with the context-deadline error, and the resulting
outcome's error embeds `context.DeadlineExceeded`'s message — an error
distinguishable by construction from every other transport error. -/
theorem c5_deadline_sixty_nine (dec : JSONDecoder) (oracle : Oracle)
    (req : PayloadRequest)
    (hm : (oracle req).marshalErr = none)
    (hn : (oracle req).newRequestErr = none)
    (hl : 69 < (oracle req).latencySeconds) :
    clientDo 69 (oracle req) = .error .deadlineExceeded ∧
    (pOne dec oracle req).Error =
      "Error Posting with Context: " ++ GoError.message .deadlineExceeded ∧
    (pOne dec oracle req).Response = none ∧
    "context deadline exceeded".data <:+: (pOne dec oracle req).Error.data ∧
    ∀ msg, GoError.deadlineExceeded ≠ GoError.other msg := by
  have hmin : min 69 SharedClientTimeoutSeconds = 69 := by decide
  have hcd : clientDo 69 (oracle req) = .error .deadlineExceeded := by
    unfold clientDo
    rw [hmin, if_pos hl]
  have hpost : PostRequestWithContext 69 (oracle req) = .error .deadlineExceeded := by
    unfold PostRequestWithContext
    rw [hm, hn, hcd]
  refine ⟨hcd, ?_, ?_, ?_, fun msg h => GoError.noConfusion h⟩
  · simp [pOne, ProcessSingleRequest, hpost]
  · simp [pOne, ProcessSingleRequest, hpost]
  · exact ⟨"Error Posting with Context: ".data, [],
      by simp [pOne, ProcessSingleRequest, hpost, GoError.message,
        String.data_append]⟩

/-- A downstream service slower than the per-call deadline. -/
def oracleSlow : Oracle := fun _ =>
  { marshalErr := none, newRequestErr := none, latencySeconds := 100,
    doResult := .ok ⟨200, "[]"⟩, readErr := none, panics := false }

/-- Witness for C5: a 100-second downstream call times out. -/
theorem c5_deadline_sixty_nine_witness :
    clientDo 69 (oracleSlow sampleRequest) = .error .deadlineExceeded ∧
    (pOne decEmpty oracleSlow sampleRequest).Error =
      "Error Posting with Context: " ++ GoError.message .deadlineExceeded ∧
    (pOne decEmpty oracleSlow sampleRequest).Response = none ∧
    "context deadline exceeded".data <:+:
      (pOne decEmpty oracleSlow sampleRequest).Error.data ∧
    ∀ msg, GoError.deadlineExceeded ≠ GoError.other msg :=
  c5_deadline_sixty_nine decEmpty oracleSlow sampleRequest rfl rfl (by decide)

/-! ## Claim C3 -/

/-- No transition leaves a crashed state: an unrecovered panic has
terminated the process. -/
theorem no_step_of_crashed {dec : JSONDecoder} {oracle : Oracle}
    {s t : PState} (hs : s.crashed = true) (h : Step dec oracle s t) :
    False := by
  cases h <;> simp at hs

/-- A downstream environment in whose call path an unexpected runtime
fault occurs. -/
def oracleFault : Oracle := fun _ =>
  { marshalErr := none, newRequestErr := none, latencySeconds := 0,
    doResult := .ok ⟨200, "[]"⟩, readErr := none, panics := true }

/-- The state after the single worker grabbed the faulting item and the
panic terminated the process. -/
def crashedState : PState := ⟨[], {WorkerState.done}, [], true⟩

/-- C3 exhibits a code bug: the worker body (rate.go lines 246-261) has
no `recover()`, so an unexpected runtime fault while processing an item
is NOT converted into an outcome.  Concretely, a one-item batch whose
call path faults reaches a crashed state: the deferred `wg.Done` has run
(the worker is `done`, the join count is released), but no outcome was
published, the run is not a completed dispatch, and no further step is
possible — the process is dead and sibling items would be lost. -/
theorem c3_fault_kills_process :
    Reachable decEmpty oracleFault (initState [sampleRequest] 1) crashedState ∧
    crashedState.results = [] ∧
    crashedState.crashed = true ∧
    ¬ Final crashedState ∧
    ∀ t, ¬ Step decEmpty oracleFault crashedState t := by
  refine ⟨?_, rfl, rfl, ?_, fun t h => no_step_of_crashed rfl h⟩
  · have h1 : Step decEmpty oracleFault
        (⟨sampleRequest :: [], 0 + {WorkerState.idle}, [], false⟩ : PState)
        (⟨[], 0 + {WorkerState.working sampleRequest}, [], false⟩ : PState) :=
      Step.grab sampleRequest [] 0 []
    have h2 : Step decEmpty oracleFault
        (⟨[], 0 + {WorkerState.working sampleRequest}, [], false⟩ : PState)
        (⟨[], 0 + {WorkerState.done}, [], true⟩ : PState) :=
      Step.fault sampleRequest [] 0 [] rfl
    have e0 : initState [sampleRequest] 1
        = (⟨sampleRequest :: [], 0 + {WorkerState.idle}, [], false⟩ : PState) := by
      simp [initState, Multiset.replicate_one]
    have e2 : (⟨[], 0 + {WorkerState.done}, [], true⟩ : PState) = crashedState := by
      simp [crashedState]
    rw [e0]
    exact Relation.ReflTransGen.head h1 (Relation.ReflTransGen.head h2 (by rw [e2]))
  · intro hfin
    exact Bool.noConfusion hfin.1

/-! ## Claims C6 and C9 -/

/-- The identity provider answers 401 (invalid credential). -/
def authEnv401 : AuthEnv :=
  { postFormErr := none, status := 401, decodeErr := none, accessToken := none }

/-- The identity provider answers 200 with a JSON body lacking a
string-typed `access_token` field. -/
def authEnvMissingToken : AuthEnv :=
  { postFormErr := none, status := 200, decodeErr := none, accessToken := none }

/-- A probe standing for `ProcessRequestsInParallel` that records the
`Authorization` header it was dispatched with. -/
def probeDispatch :
    RequestProcessor → List PayloadRequest →
      List ResponseWithStopID × Option String :=
  fun p _ => ([⟨0, none, (p.Headers.lookup "Authorization").getD ""⟩], none)

/-- C6 exhibits a code bug: with the identity provider answering 401,
`GetOAuthToken` returns an empty token and a `nil` error (it returns the
outer `err`, which is `nil` on that path), so `SubmitRatingHandler` does
NOT respond with a non-200 status: it proceeds to dispatch the batch —
the probe dispatcher runs and its outcomes are returned as the 200
response body. -/
theorem c6_auth_failure_reaches_dispatch :
    GetOAuthToken authEnv401 = ("", none) ∧
    SubmitRatingHandler probeDispatch ⟨Except.ok [sampleRequest], authEnv401⟩ =
      HandlerResult.okJSON [⟨0, none, "Bearer "⟩] := by
  exact ⟨rfl, rfl⟩

/-- C9: for the identity provider answering non-200, or 200 with a body
lacking a string `access_token` field, `GetOAuthToken` returns
`("", nil)`; `NewRequestProcessor` therefore reports success with the
header `Authorization: Bearer ` (empty token), and the batch is
dispatched with that header. -/
theorem c9_empty_token_nil_error :
    GetOAuthToken authEnv401 = ("", none) ∧
    GetOAuthToken authEnvMissingToken = ("", none) ∧
    NewRequestProcessor authEnv401 =
      .ok ⟨"", [("Authorization", "Bearer "),
                ("Content-Type", "application/json")], MaxWorkers⟩ ∧
    SubmitRatingHandler probeDispatch
        ⟨Except.ok [sampleRequest], authEnvMissingToken⟩ =
      HandlerResult.okJSON [⟨0, none, "Bearer "⟩] := by
  exact ⟨rfl, rfl, rfl, rfl⟩

/-! ## Claim C10 -/

/-- C10: `ProcessSingleRequest` returns a `nil` error on every input
(all failures are embedded in the outcome), the dispatcher's single
return site carries a `nil` error, and consequently the handler's 500
InternalServerError branch for concurrency errors can never fire for any
dispatcher satisfying that contract. -/
theorem c10_nil_errors_unreachable_500 :
    (∀ (dec : JSONDecoder) (oracle : Oracle) (req : PayloadRequest),
      (ProcessSingleRequest dec oracle req).2 = none) ∧
    (∀ s : PState, (dispatchReturn s).2 = none) ∧
    (∀ (dispatchF : RequestProcessor → List PayloadRequest →
        List ResponseWithStopID × Option String) (env : HandlerEnv),
      (∀ p reqs, (dispatchF p reqs).2 = none) →
      ∀ msg, SubmitRatingHandler dispatchF env ≠
        HandlerResult.respondError 500 msg) := by
  refine ⟨?_, fun s => rfl, ?_⟩
  · intro dec oracle req
    unfold ProcessSingleRequest
    rcases h : PostRequestWithContext 69 (oracle req) with e | response
    · rfl
    · rcases h2 : dec response with e | a <;> simp [h2]
  · intro dispatchF env hnil msg
    unfold SubmitRatingHandler
    rcases hpr : env.parseResult with e | requests
    · simp
    · rcases hnp : NewRequestProcessor env.authEnv with e | proc
      · simp
      · have h2 := hnil proc requests
        rcases hd : dispatchF proc requests with ⟨responses, err⟩
        rw [hd] at h2
        simp at h2
        subst h2
        simp [hd]

/-- Witness for C10's conditional part, at the probe dispatcher (which
returns a `nil` error) and a concrete environment. -/
theorem c10_nil_errors_unreachable_500_witness :
    SubmitRatingHandler probeDispatch ⟨Except.ok [sampleRequest], authEnv401⟩ ≠
      HandlerResult.respondError 500 "boom" :=
  c10_nil_errors_unreachable_500.2.2 probeDispatch
    ⟨Except.ok [sampleRequest], authEnv401⟩ (fun _ _ => rfl) "boom"

end Revcon
